import Mathlib

/-!
Verification of the sidecar-lifecycle supervisor in
`src/tauri/src-tauri/src/lib.rs` (crate `trenino`).

The Rust code spawns a backend process, polls `GET /api/health` with
bounded retries while updating a splash window, and on exit requests a
graceful shutdown over HTTP, falling back to killing the child process.
We embed the control flow of `check_backend_ready`, `wait_for_backend`,
the readiness thread, and the `ExitRequested` handler as pure Lean
functions over an explicit model of HTTP request outcomes, and record
the observable effects (probe calls, splash status updates, sleeps,
window actions, kills) as traces.
-/

namespace Trenino

/-- Rust constant `BACKEND_PORT: u16 = 4000`. -/
def BACKEND_PORT : Nat := 4000

/-- Rust constant `MAX_RETRIES: u32 = 120` — the attempt budget of `wait_for_backend`. -/
def MAX_RETRIES : Nat := 120

/-- Rust constant `RETRY_DELAY_MS: u64 = 500` — the sleep between attempts. -/
def RETRY_DELAY_MS : Nat := 500

/-- The `.timeout(Duration::from_secs(2))` on the shutdown POST, in ms. -/
def SHUTDOWN_TIMEOUT_MS : Nat := 2000

/-- The `sleep(Duration::from_millis(500))` grace period after a
successful shutdown acknowledgement, in ms. -/
def GRACE_PERIOD_MS : Nat := 500

/-- Outcome of one blocking HTTP request (`reqwest::blocking`): either a
completed response carrying a status code, or a transport failure
(connection refused, timeout, ...), which Rust surfaces as `Err(_)`. -/
inductive HttpOutcome where
  | response (status : Nat)
  | failed
deriving DecidableEq, Repr

/-- Rust `StatusCode::is_success()`: the status is in the 2xx class. -/
def isSuccess (status : Nat) : Bool :=
  200 ≤ status && status < 300

/-- Function `check_backend_ready` from `lib.rs`: a success-class response gives
`Ok(true)`; a completed non-success response gives `Ok(false)` ("server
is up but not ready"); a failed request also gives `Ok(false)` ("server
not yet responding").  The request outcome is the function's input. -/
def check_backend_ready (r : HttpOutcome) : Except String Bool :=
  match r with
  | .response status =>
    if isSuccess status then Except.ok true else Except.ok false
  | .failed => Except.ok false

/-- Observable effects of the startup path: a health probe on a given
attempt number, a splash status-text update, a thread sleep, and the
window/process actions of the readiness thread. -/
inductive Event where
  | probe (attempt : Nat)
  | statusUpdate (text : String)
  | sleepMs (ms : Nat)
  | createMain
  | closeSplash
  | showMain
  | showFailureMessage
  | exitProcess (code : Nat)
deriving DecidableEq, Repr

/-- The status text chosen inside `wait_for_backend` for an attempt:
`attempt < 10` / `attempt < 30` / otherwise. -/
def splashStatus (attempt : Nat) : String :=
  if attempt < 10 then "Starting server..."
  else if attempt < 30 then "Running database migrations..."
  else "Almost ready..."

/-- The `for attempt in 1..=MAX_RETRIES` loop of `wait_for_backend`,
with the remaining iteration count as fuel.  `probe` gives the HTTP
outcome observed on each attempt; `splash` records whether
`get_webview_window("splash")` returned `Some`.  On `Ok(true)` the loop
returns `true` at once; on `Ok(false)` it updates the splash status (if
present) and sleeps; on `Err` it only sleeps.  When the fuel runs out
the function returns `false`. -/
def waitLoop (probe : Nat → HttpOutcome) (splash : Bool) :
    Nat → Nat → Bool × List Event
  | _, 0 => (false, [])
  | attempt, fuel + 1 =>
    match check_backend_ready (probe attempt) with
    | Except.ok true => (true, [Event.probe attempt])
    | Except.ok false =>
      let rest := waitLoop probe splash (attempt + 1) fuel
      if splash then
        (rest.1, Event.probe attempt ::
          Event.statusUpdate (splashStatus attempt) ::
          Event.sleepMs RETRY_DELAY_MS :: rest.2)
      else
        (rest.1, Event.probe attempt ::
          Event.sleepMs RETRY_DELAY_MS :: rest.2)
    | Except.error _ =>
      let rest := waitLoop probe splash (attempt + 1) fuel
      (rest.1, Event.probe attempt ::
        Event.sleepMs RETRY_DELAY_MS :: rest.2)

/-- Function `wait_for_backend`, parametrised over the attempt budget (the code
instantiates it with `MAX_RETRIES`).  Attempts start at 1. -/
def wait_for_backend (probe : Nat → HttpOutcome) (splash : Bool)
    (maxRetries : Nat) : Bool × List Event :=
  waitLoop probe splash 1 maxRetries

/-- The readiness thread spawned in `setup`: it runs `wait_for_backend`;
on `true` it builds the main window, closes the splash and shows the
main window; on `false` it shows the failure message on the splash,
sleeps 3 s, and calls `std::process::exit(1)`. -/
def readinessThread (probe : Nat → HttpOutcome) (splash : Bool)
    (maxRetries : Nat) : List Event :=
  let r := wait_for_backend probe splash maxRetries
  if r.1 then
    r.2 ++ [Event.createMain, Event.closeSplash, Event.showMain]
  else
    r.2 ++ [Event.showFailureMessage, Event.sleepMs 3000,
            Event.exitProcess 1]

/-- The attempt numbers of the probe calls in a trace, in order. -/
def probeAttempts : List Event → List Nat
  | [] => []
  | Event.probe n :: tr => n :: probeAttempts tr
  | _ :: tr => probeAttempts tr

/-- How many sleeps a trace performs. -/
def sleepCount : List Event → Nat
  | [] => 0
  | Event.sleepMs _ :: tr => sleepCount tr + 1
  | _ :: tr => sleepCount tr

/-- The splash status texts pushed by a trace, in order. -/
def statusTexts : List Event → List String
  | [] => []
  | Event.statusUpdate s :: tr => s :: statusTexts tr
  | _ :: tr => statusTexts tr

/-- Result of one run of the `ExitRequested` handler: the
`shutdown_succeeded` flag, the child handles killed (in order), the
final contents of the `BackendProcess` slot, and the sleeps performed
(in ms).  Child handles are modelled as natural numbers. -/
structure ExitResult where
  shutdown_succeeded : Bool
  kills : List Nat
  slot : Option Nat
  sleeps : List Nat
deriving DecidableEq, Repr

/-- Whether the shutdown POST outcome sets `shutdown_succeeded`:
`Ok(response)` with a success-class status.  Non-success statuses and
request errors both leave it `false`. -/
def responseSuccess : HttpOutcome → Bool
  | .response s => isSuccess s
  | .failed => false

/-- The `RunEvent::ExitRequested` handler from `run`: POST the shutdown
endpoint (its outcome is `resp`); if it acknowledged with a success
status, sleep the 500 ms grace period and leave the stored handle
alone; otherwise lock the `BackendProcess` slot, `take()` the handle,
and `kill()` it when one was present. -/
def exitRequestedHandler (resp : HttpOutcome) (slot : Option Nat) :
    ExitResult :=
  if responseSuccess resp then
    { shutdown_succeeded := true, kills := [], slot := slot,
      sleeps := [GRACE_PERIOD_MS] }
  else
    match slot with
    | some child =>
      { shutdown_succeeded := false, kills := [child], slot := none,
        sleeps := [] }
    | none =>
      { shutdown_succeeded := false, kills := [], slot := none,
        sleeps := [] }

/-- Wall-clock time of one run of the exit handler: the time the
blocking POST took (bounded by its 2 s timeout) plus the sleeps the
handler performs. -/
def exitElapsedMs (requestMs : Nat) (resp : HttpOutcome)
    (slot : Option Nat) : Nat :=
  requestMs + ((exitRequestedHandler resp slot).sleeps.foldr (· + ·) 0)

/-- The kill fallback in the exit handler, in isolation (`guard.take()`
followed by `kill()` on the taken handle): returns the kills performed
and the new slot contents.  `kill`'s own result is discarded by the code
(`let _ = child.kill();`), so killing an already-exited process raises
no error. -/
def terminateHandle : Option Nat → List Nat × Option Nat
  | some child => ([child], none)
  | none => ([], none)

/-- The initial contents of the `BackendProcess` slot, from
`.manage(BackendProcess(Mutex::new(None)))`: empty. -/
def initialBackendSlot : Option Nat := none

/-- The single write of the spawning path, line 120 of `lib.rs`:
`*backend_state.0.lock().unwrap() = Some(child);`. -/
def storeBackendHandle (child : Nat) : Option Nat := some child

/-- The successive contents of the `BackendProcess` slot over a run
that reaches the exit handler.  The source writes the slot in exactly
two places: the `.manage` initialisation (empty) and the single store
in `setup` after spawning the sidecar; the only later access is the
`take()` inside the `ExitRequested` handler.  So the slot's history
is: initial state, state after the spawn-path write, state the exit
handler leaves behind. -/
def slotStates (child : Nat) (resp : HttpOutcome) : List (Option Nat) :=
  [initialBackendSlot,
   storeBackendHandle child,
   (exitRequestedHandler resp (storeBackendHandle child)).slot]

/-! ### Unfolding lemmas for the polling loop -/

theorem waitLoop_ok_true (probe : Nat → HttpOutcome) (splash : Bool)
    (a fuel : Nat) (h : check_backend_ready (probe a) = Except.ok true) :
    waitLoop probe splash a (fuel + 1) = (true, [Event.probe a]) := by
  simp only [waitLoop, h]

theorem waitLoop_ok_false (probe : Nat → HttpOutcome) (splash : Bool)
    (a fuel : Nat) (h : check_backend_ready (probe a) = Except.ok false) :
    waitLoop probe splash a (fuel + 1) =
      if splash then
        ((waitLoop probe splash (a + 1) fuel).1,
         Event.probe a :: Event.statusUpdate (splashStatus a) ::
          Event.sleepMs RETRY_DELAY_MS ::
          (waitLoop probe splash (a + 1) fuel).2)
      else
        ((waitLoop probe splash (a + 1) fuel).1,
         Event.probe a :: Event.sleepMs RETRY_DELAY_MS ::
          (waitLoop probe splash (a + 1) fuel).2) := by
  simp only [waitLoop, h]

/-- Helper: `check_backend_ready` never returns the `Err` constructor, so in the
loop only the two `Ok` branches are reachable. -/
theorem check_backend_ready_isOk (r : HttpOutcome) :
    ∃ b : Bool, check_backend_ready r = Except.ok b := by
  cases r with
  | response status =>
    by_cases h : isSuccess status
    · exact ⟨true, by simp [check_backend_ready, h]⟩
    · exact ⟨false, by simp [check_backend_ready, h]⟩
  | failed => exact ⟨false, rfl⟩

/-- Core loop lemma: when the probe at offset `d` is the first healthy
one and there is fuel to reach it, the loop returns `true`, probes
exactly attempts `a, a+1, ..., a+d`, and sleeps once per failed
attempt, i.e. `d` times. -/
theorem waitLoop_first_healthy (probe : Nat → HttpOutcome)
    (splash : Bool) :
    ∀ d a fuel, d < fuel →
    check_backend_ready (probe (a + d)) = Except.ok true →
    (∀ j, j < d → check_backend_ready (probe (a + j)) ≠ Except.ok true) →
    (waitLoop probe splash a fuel).1 = true ∧
    probeAttempts (waitLoop probe splash a fuel).2 =
      List.range' a (d + 1) ∧
    sleepCount (waitLoop probe splash a fuel).2 = d := by
  intro d
  induction d with
  | zero =>
    intro a fuel hlt hh _
    obtain ⟨f, rfl⟩ : ∃ f, fuel = f + 1 := ⟨fuel - 1, by omega⟩
    rw [waitLoop_ok_true probe splash a f (by simpa using hh)]
    simp [probeAttempts, sleepCount]
  | succ d ih =>
    intro a fuel hlt hh hbefore
    obtain ⟨f, rfl⟩ : ∃ f, fuel = f + 1 := ⟨fuel - 1, by omega⟩
    have h0 : check_backend_ready (probe a) ≠ Except.ok true := by
      simpa using hbefore 0 (by omega)
    have hrec := ih (a + 1) f (by omega)
      (by have e : a + 1 + d = a + (d + 1) := by omega
          rw [e]; exact hh)
      (fun j hj => by
        have e : a + 1 + j = a + (j + 1) := by omega
        rw [e]; exact hbefore (j + 1) (by omega))
    obtain ⟨b, hb⟩ := check_backend_ready_isOk (probe a)
    cases b with
    | true => exact absurd hb h0
    | false =>
      rw [waitLoop_ok_false probe splash a f hb]
      cases splash <;>
        simp [probeAttempts, sleepCount, hrec.1, hrec.2.1,
          hrec.2.2, List.range'_succ]

/-- Core loop lemma: when no probe within the fuel budget is healthy,
the loop returns `false`, probes exactly attempts `a, ..., a+fuel-1`,
and sleeps once per attempt. -/
theorem waitLoop_all_unhealthy (probe : Nat → HttpOutcome)
    (splash : Bool) :
    ∀ fuel a,
    (∀ j, j < fuel → check_backend_ready (probe (a + j)) ≠ Except.ok true) →
    (waitLoop probe splash a fuel).1 = false ∧
    probeAttempts (waitLoop probe splash a fuel).2 = List.range' a fuel ∧
    sleepCount (waitLoop probe splash a fuel).2 = fuel := by
  intro fuel
  induction fuel with
  | zero => intro a _; simp [waitLoop, probeAttempts, sleepCount]
  | succ f ih =>
    intro a hall
    have h0 : check_backend_ready (probe a) ≠ Except.ok true := by
      simpa using hall 0 (by omega)
    have hrec := ih (a + 1) (fun j hj => by
      have e : a + 1 + j = a + (j + 1) := by omega
      rw [e]; exact hall (j + 1) (by omega))
    obtain ⟨b, hb⟩ := check_backend_ready_isOk (probe a)
    cases b with
    | true => exact absurd hb h0
    | false =>
      rw [waitLoop_ok_false probe splash a f hb]
      cases splash <;>
        simp [probeAttempts, sleepCount, hrec.1, hrec.2.1,
          hrec.2.2, List.range'_succ]

/-! ### Concrete probe traces used to instantiate the theorems -/

/-- A backend that is unreachable on attempts 1 and 2 and healthy from
attempt 3 on. -/
def probeHealthyAt3 : Nat → HttpOutcome :=
  fun n => if n < 3 then HttpOutcome.failed else HttpOutcome.response 200

/-- A backend that never becomes healthy. -/
def probeNeverHealthy : Nat → HttpOutcome :=
  fun _ => HttpOutcome.failed

/-- A backend that answers 503 on attempts 1 and 2 and 200 from
attempt 3 on. -/
def probeReadyAt3 : Nat → HttpOutcome :=
  fun n => if n < 3 then HttpOutcome.response 503 else HttpOutcome.response 200

/-! ### Claim theorems -/

/-- Claim C1: when the probe first reports healthy on attempt `N` with
`1 ≤ N ≤ M`, `wait_for_backend` returns `true`, performs exactly the
probe calls of attempts `1, ..., N` (so exactly `N` probe calls and
none after the success) and exactly `N - 1` sleeps of the fixed
interval (none after the success). -/
theorem wait_for_backend_first_healthy (probe : Nat → HttpOutcome)
    (splash : Bool) (M N : Nat) (h1 : 1 ≤ N) (h2 : N ≤ M)
    (hh : check_backend_ready (probe N) = Except.ok true)
    (hb : ∀ k, 1 ≤ k → k < N →
      check_backend_ready (probe k) ≠ Except.ok true) :
    (wait_for_backend probe splash M).1 = true ∧
    probeAttempts (wait_for_backend probe splash M).2 = List.range' 1 N ∧
    sleepCount (wait_for_backend probe splash M).2 = N - 1 := by
  have key := waitLoop_first_healthy probe splash (N - 1) 1 M (by omega)
    (by have e : 1 + (N - 1) = N := by omega
        rw [e]; exact hh)
    (fun j hj => by
      have e : 1 + j = j + 1 := by omega
      rw [e]; exact hb (j + 1) (by omega) (by omega))
  have e : N - 1 + 1 = N := by omega
  rw [e] at key
  exact ⟨key.1, key.2.1, key.2.2⟩

/-- Witness for C1: healthy from attempt 3 on, budget 5. -/
theorem wait_for_backend_first_healthy_witness :
    (wait_for_backend probeHealthyAt3 true 5).1 = true ∧
    probeAttempts (wait_for_backend probeHealthyAt3 true 5).2 =
      List.range' 1 3 ∧
    sleepCount (wait_for_backend probeHealthyAt3 true 5).2 = 3 - 1 :=
  wait_for_backend_first_healthy probeHealthyAt3 true 5 3 (by norm_num)
    (by norm_num) (by rfl)
    (fun k hk1 hk2 => by
      have hk : probeHealthyAt3 k = HttpOutcome.failed := by
        simp only [probeHealthyAt3, if_pos (show k < 3 by omega)]
      rw [hk]
      simp [check_backend_ready])

/-- Claim C2: when every probe in the budget `M` is non-healthy,
`wait_for_backend` returns `false` after probing exactly the attempts
`1, 2, ..., M` — the attempt counter starts at 1, increments by one per
iteration and the loop ends after the `M`-th probe. -/
theorem wait_for_backend_all_unhealthy (probe : Nat → HttpOutcome)
    (splash : Bool) (M : Nat)
    (hall : ∀ k, 1 ≤ k → k ≤ M →
      check_backend_ready (probe k) ≠ Except.ok true) :
    (wait_for_backend probe splash M).1 = false ∧
    probeAttempts (wait_for_backend probe splash M).2 =
      List.range' 1 M := by
  have key := waitLoop_all_unhealthy probe splash M 1
    (fun j hj => hall (1 + j) (by omega) (by omega))
  exact ⟨key.1, key.2.1⟩

/-- Witness for C2: a never-healthy backend with budget 4. -/
theorem wait_for_backend_all_unhealthy_witness :
    (wait_for_backend probeNeverHealthy true 4).1 = false ∧
    probeAttempts (wait_for_backend probeNeverHealthy true 4).2 =
      List.range' 1 4 :=
  wait_for_backend_all_unhealthy probeNeverHealthy true 4
    (fun k _ _ => by simp [probeNeverHealthy, check_backend_ready])

/-- Claim C3: in the exit handler, with a handle stored in the slot, the
forceful kill happens exactly when the shutdown request did not return
a success-class status, and then exactly once on the stored handle;
after a graceful acknowledgement no kill happens at all. -/
theorem exit_kill_iff_not_acked (resp : HttpOutcome) (h : Nat) :
    (exitRequestedHandler resp (some h)).kills =
      (if responseSuccess resp then [] else [h]) := by
  by_cases hr : responseSuccess resp <;> simp [exitRequestedHandler, hr]

/-- Claim C4: every branch of the exit handler terminates, and its
wall-clock time — the bounded shutdown request plus any sleep it
performs — never exceeds the request timeout plus the grace period,
whatever the response and the slot contents. -/
theorem exit_elapsed_bounded (requestMs : Nat) (resp : HttpOutcome)
    (slot : Option Nat) (h : requestMs ≤ SHUTDOWN_TIMEOUT_MS) :
    exitElapsedMs requestMs resp slot ≤
      SHUTDOWN_TIMEOUT_MS + GRACE_PERIOD_MS := by
  have h' : requestMs ≤ 2000 := h
  by_cases hr : responseSuccess resp <;> cases slot <;>
    simp [exitElapsedMs, exitRequestedHandler, hr, GRACE_PERIOD_MS,
      SHUTDOWN_TIMEOUT_MS] <;>
    omega

/-- Witness for C4: request takes the full 2 s, backend acknowledged. -/
theorem exit_elapsed_bounded_witness :
    exitElapsedMs 2000 (HttpOutcome.response 200) (some 1) ≤
      SHUTDOWN_TIMEOUT_MS + GRACE_PERIOD_MS :=
  exit_elapsed_bounded 2000 (HttpOutcome.response 200) (some 1)
    (by norm_num [SHUTDOWN_TIMEOUT_MS])

/-- Claim C5: the take-and-kill fallback is idempotent: running it on the
slot it left behind performs no kill and leaves the slot empty, for any
initial slot (already-empty slots included); it returns no error. -/
theorem terminateHandle_idempotent (s : Option Nat) :
    terminateHandle (terminateHandle s).2 = ([], none) := by
  cases s <;> rfl

/-- Claim C9: when no probe ever reports healthy, `wait_for_backend`
returns `false` and the readiness thread shows the failure message on
the splash surface, sleeps 3 s, and exits the process with status 1. -/
theorem readiness_failure_path (probe : Nat → HttpOutcome)
    (splash : Bool) (M : Nat)
    (hall : ∀ k, check_backend_ready (probe k) ≠ Except.ok true) :
    (wait_for_backend probe splash M).1 = false ∧
    readinessThread probe splash M =
      (wait_for_backend probe splash M).2 ++
        [Event.showFailureMessage, Event.sleepMs 3000,
         Event.exitProcess 1] := by
  have key := waitLoop_all_unhealthy probe splash M 1
    (fun j _ => hall (1 + j))
  have h1 : (wait_for_backend probe splash M).1 = false := key.1
  exact ⟨h1, by simp [readinessThread, h1]⟩

/-- Witness for C9: never-healthy backend, budget 5. -/
theorem readiness_failure_path_witness :
    (wait_for_backend probeNeverHealthy true 5).1 = false ∧
    readinessThread probeNeverHealthy true 5 =
      (wait_for_backend probeNeverHealthy true 5).2 ++
        [Event.showFailureMessage, Event.sleepMs 3000,
         Event.exitProcess 1] :=
  readiness_failure_path probeNeverHealthy true 5
    (fun k => by simp [probeNeverHealthy, check_backend_ready])

/-- Claim C10: `check_backend_ready` returns `Ok` on every input — both
non-success responses and failed requests map to `Ok(false)` — so the
`Err` arm of the `wait_for_backend` match is unreachable. -/
theorem check_backend_ready_never_err (r : HttpOutcome) :
    ∃ b : Bool, check_backend_ready r = Except.ok b :=
  check_backend_ready_isOk r

/-- Counterexample to claim C6: with the backend answering 503 on attempts 1
and 2 and 200 on attempt 3, and a budget of 60, only TWO status-text
updates reach the splash surface, not three — the successful attempt
returns before updating the status. -/
theorem splash_updates_not_three :
    ¬ ((statusTexts (wait_for_backend probeReadyAt3 true 60).2).length
        = 3) := by
  decide

/-- Claim C6 as amended: backend healthy on attempt 3 with budget 60: the
wait returns `true`, exactly two status updates — both with the
"starting" phase text — are pushed, and the readiness thread performs
them before creating the main window, closing the splash and showing
the main window. -/
theorem splash_updates_healthy_at_3 (probe : Nat → HttpOutcome)
    (h1 : check_backend_ready (probe 1) = Except.ok false)
    (h2 : check_backend_ready (probe 2) = Except.ok false)
    (h3 : check_backend_ready (probe 3) = Except.ok true) :
    (wait_for_backend probe true 60).1 = true ∧
    statusTexts (wait_for_backend probe true 60).2 =
      ["Starting server...", "Starting server..."] ∧
    readinessThread probe true 60 =
      (wait_for_backend probe true 60).2 ++
        [Event.createMain, Event.closeSplash, Event.showMain] := by
  have e1 := waitLoop_ok_false probe true 1 59 h1
  have e2 := waitLoop_ok_false probe true 2 58 h2
  have e3 := waitLoop_ok_true probe true 3 57 h3
  simp only [if_pos rfl] at e1 e2
  have w : wait_for_backend probe true 60 =
      (true, [Event.probe 1, Event.statusUpdate (splashStatus 1),
              Event.sleepMs RETRY_DELAY_MS, Event.probe 2,
              Event.statusUpdate (splashStatus 2),
              Event.sleepMs RETRY_DELAY_MS, Event.probe 3]) := by
    show waitLoop probe true 1 60 = _
    rw [show (60 : Nat) = 59 + 1 from rfl, e1,
        show (59 : Nat) = 58 + 1 from rfl, e2,
        show (58 : Nat) = 57 + 1 from rfl, e3]
    simp
  refine ⟨by rw [w], ?_, ?_⟩
  · rw [w]
    simp [statusTexts, splashStatus]
  · simp [readinessThread, w]

/-- Witness for C6 (amended): the 503/503/200 backend. -/
theorem splash_updates_healthy_at_3_witness :
    (wait_for_backend probeReadyAt3 true 60).1 = true ∧
    statusTexts (wait_for_backend probeReadyAt3 true 60).2 =
      ["Starting server...", "Starting server..."] ∧
    readinessThread probeReadyAt3 true 60 =
      (wait_for_backend probeReadyAt3 true 60).2 ++
        [Event.createMain, Event.closeSplash, Event.showMain] :=
  splash_updates_healthy_at_3 probeReadyAt3 (by rfl) (by rfl) (by rfl)

/-- Counterexample to claim C7: a completed non-success response (503) and a
failed request are mapped by `check_backend_ready` to the SAME return
value `Ok(false)` — "Unreachable" is not distinguishable from
"NotReady" in the probe's return value. -/
theorem probe_unreachable_eq_notready :
    check_backend_ready (HttpOutcome.response 503) =
      check_backend_ready HttpOutcome.failed := rfl

/-- Claim C7 as amended: the probe is two-valued: a success-class response
yields `Ok(true)`, and both a completed non-success response and a
failed request yield the single value `Ok(false)` — the latter two are
not distinguished. -/
theorem check_backend_ready_classification (s : Nat) :
    (isSuccess s = true →
      check_backend_ready (HttpOutcome.response s) = Except.ok true) ∧
    (isSuccess s = false →
      check_backend_ready (HttpOutcome.response s) = Except.ok false) ∧
    check_backend_ready HttpOutcome.failed = Except.ok false :=
  ⟨fun h => by simp [check_backend_ready, h],
   fun h => by simp [check_backend_ready, h],
   rfl⟩

/-- Witness for C7 (amended): status 200 is healthy, status 503 and a
failed request both give `Ok(false)`. -/
theorem check_backend_ready_classification_witness :
    check_backend_ready (HttpOutcome.response 200) = Except.ok true ∧
    check_backend_ready (HttpOutcome.response 503) = Except.ok false ∧
    check_backend_ready HttpOutcome.failed = Except.ok false :=
  ⟨(check_backend_ready_classification 200).1 (by decide),
   (check_backend_ready_classification 503).2.1 (by decide),
   (check_backend_ready_classification 503).2.2⟩

/-- Counterexample to claim C8: after a graceful acknowledgement (status
200) the exit handler leaves the stored handle in the slot — the slot
is NOT empty when the handler completes. -/
theorem exit_graceful_slot_not_cleared :
    ¬ ((exitRequestedHandler (HttpOutcome.response 200) (some 7)).slot
        = none) := by
  decide

/-- Claim C8 as amended: the slot starts empty and is written exactly
once by the spawning path, transitioning from empty to holding the
single live handle; the shutdown path reads-and-clears it only when
the graceful shutdown did not succeed — there it takes the stored
handle, kills it exactly once, and leaves the slot empty — while after
a graceful acknowledgement the slot still holds the handle; and at
every point of the slot's history at most one live handle exists (the
slot is empty or holds exactly the spawned handle). -/
theorem backend_slot_lifecycle (resp : HttpOutcome) (child : Nat) :
    initialBackendSlot = none ∧
    storeBackendHandle child = some child ∧
    (responseSuccess resp = false →
      (exitRequestedHandler resp (storeBackendHandle child)).slot = none ∧
      (exitRequestedHandler resp (storeBackendHandle child)).kills =
        [child]) ∧
    (responseSuccess resp = true →
      (exitRequestedHandler resp (storeBackendHandle child)).slot =
        some child ∧
      (exitRequestedHandler resp (storeBackendHandle child)).kills =
        []) ∧
    (∀ s ∈ slotStates child resp, s = none ∨ s = some child) := by
  refine ⟨rfl, rfl, ?_, ?_, ?_⟩
  · intro hr
    simp [exitRequestedHandler, storeBackendHandle, hr]
  · intro hr
    simp [exitRequestedHandler, storeBackendHandle, hr]
  · intro s hs
    by_cases hr : responseSuccess resp <;>
      simp [slotStates, initialBackendSlot, storeBackendHandle,
        exitRequestedHandler, hr] at hs <;>
      tauto

/-- Witness for C8 as amended: connection refused at shutdown, handle 7
stored by the spawning path — the handler takes and kills handle 7 once
and leaves the slot empty. -/
theorem backend_slot_lifecycle_witness :
    initialBackendSlot = none ∧
    storeBackendHandle 7 = some 7 ∧
    (exitRequestedHandler HttpOutcome.failed (storeBackendHandle 7)).slot
      = none ∧
    (exitRequestedHandler HttpOutcome.failed (storeBackendHandle 7)).kills
      = [7] :=
  ⟨(backend_slot_lifecycle HttpOutcome.failed 7).1,
   (backend_slot_lifecycle HttpOutcome.failed 7).2.1,
   ((backend_slot_lifecycle HttpOutcome.failed 7).2.2.1 (by decide)).1,
   ((backend_slot_lifecycle HttpOutcome.failed 7).2.2.1 (by decide)).2⟩

end Trenino
